import Mathlib

/-!
Shallow embedding of the AWS ETL pipeline repository.

The repository has two Python source files:

* `s3_uploader.py` — generates synthetic transaction records and uploads
  them to S3 under date-partitioned keys;
* `lambda_function.py` — an S3-event-triggered handler that reads a raw
  CSV object, transforms the rows, optionally loads them into Redshift,
  and writes a JSON copy back to S3.

Conventions of the embedding:

* Machine floats used for amounts are modelled as rationals.
* `datetime` values are modelled structurally: a calendar date is a
  `CalDate` record, and a `datetime` carried by the generator is a
  `PyDateTime` (calendar date plus minutes within the day).
* A pandas cell that may be missing (NaN) is an `Option`; a raw CSV cell
  subject to a later `to_numeric` or `to_datetime` coercion is modelled
  at the level the pipeline observes it, as an `Option (Option _)`:
  the outer layer is presence in the raw file, the inner layer is the
  result of the coercion (`none` = coercion failed).
* Randomness is modelled as an explicit oracle (`Rand`) supplying the
  draws that `random.random`, `random.randint`, `random.uniform` and
  `random.choice` would produce; `randint lo hi` consumes a raw natural
  and maps it into the inclusive range, and `choice` consumes a raw
  index taken modulo the list length, so the oracle can reach exactly
  the values the library calls can.
* Python string formatting `%Y`, `%m`, `%d` and `{:04d}` are modelled by
  zero-padded decimal rendering built from an executable digit function.
-/

/- ### Decimal rendering (Python `strftime` / format-spec padding) -/

/-- One decimal digit rendered as a character. -/
def digit_char (d : Nat) : Char := Char.ofNat (48 + d)

/-- Little-endian decimal digits of `n` (empty for 0), with fuel so the
definition is structural and kernel-computable. -/
def nat_digits_aux : Nat → Nat → List Nat
  | _, 0 => []
  | 0, _ + 1 => []
  | fuel + 1, n + 1 => ((n + 1) % 10) :: nat_digits_aux fuel ((n + 1) / 10)

/-- Little-endian decimal digits of `n` (empty for 0). -/
def nat_digits (n : Nat) : List Nat := nat_digits_aux n n

/-- Value of a little-endian decimal digit list. -/
def nat_val : List Nat → Nat
  | [] => 0
  | d :: ds => d + 10 * nat_val ds

/-- Digits of `n` padded with high-order zeros to at least width `w`
(little-endian). -/
def pad_digits (w n : Nat) : List Nat :=
  nat_digits n ++ List.replicate (w - (nat_digits n).length) 0

/-- `n` rendered in decimal, zero-padded to at least width `w` — the
semantics of Python `"%0wd" % n` and of zero-padded `strftime` fields. -/
def pad_num (w n : Nat) : String :=
  ⟨((pad_digits w n).reverse.map digit_char)⟩

lemma nat_val_aux (fuel : Nat) : ∀ n, n ≤ fuel → nat_val (nat_digits_aux fuel n) = n := by
  induction fuel with
  | zero =>
    intro n hn
    interval_cases n
    rfl
  | succ fuel ih =>
    intro n hn
    match n with
    | 0 => rfl
    | n + 1 =>
      have h1 : (n + 1) / 10 ≤ fuel := by omega
      simp only [nat_digits_aux, nat_val, ih _ h1]
      omega

lemma nat_val_digits (n : Nat) : nat_val (nat_digits n) = n :=
  nat_val_aux n n le_rfl

lemma nat_digits_aux_lt (fuel : Nat) : ∀ n, ∀ x ∈ nat_digits_aux fuel n, x < 10 := by
  induction fuel with
  | zero =>
    intro n x hx
    match n with
    | 0 => simp [nat_digits_aux] at hx
    | n + 1 => simp [nat_digits_aux] at hx
  | succ fuel ih =>
    intro n x hx
    match n with
    | 0 => simp [nat_digits_aux] at hx
    | n + 1 =>
      simp only [nat_digits_aux, List.mem_cons] at hx
      rcases hx with h | h
      · omega
      · exact ih _ x h

lemma nat_val_append_zeros (l : List Nat) (k : Nat) :
    nat_val (l ++ List.replicate k 0) = nat_val l := by
  induction l with
  | nil =>
    induction k with
    | zero => rfl
    | succ k ihk => simpa [List.replicate, nat_val] using ihk
  | cons d ds ih => simp [nat_val, ih]

lemma nat_val_pad_digits (w n : Nat) : nat_val (pad_digits w n) = n := by
  rw [pad_digits, nat_val_append_zeros, nat_val_digits]

lemma pad_digits_lt (w n : Nat) : ∀ x ∈ pad_digits w n, x < 10 := by
  intro x hx
  rcases List.mem_append.mp hx with h | h
  · exact nat_digits_aux_lt n n x h
  · have := List.eq_of_mem_replicate h
    omega

lemma digit_char_inj : ∀ a, a < 10 → ∀ b, b < 10 → digit_char a = digit_char b → a = b := by
  decide

lemma map_digit_char_inj : ∀ l1 l2 : List Nat, (∀ x ∈ l1, x < 10) → (∀ x ∈ l2, x < 10) →
    l1.map digit_char = l2.map digit_char → l1 = l2 := by
  intro l1
  induction l1 with
  | nil =>
    intro l2 _ _ h
    cases l2 with
    | nil => rfl
    | cons b bs => simp at h
  | cons a as ih =>
    intro l2 h1 h2 h
    cases l2 with
    | nil => simp at h
    | cons b bs =>
      simp only [List.map_cons, List.cons.injEq] at h
      have ha : a < 10 := h1 a (by simp)
      have hb : b < 10 := h2 b (by simp)
      have hab := digit_char_inj a ha b hb h.1
      have htl := ih bs (fun x hx => h1 x (by simp [hx])) (fun x hx => h2 x (by simp [hx])) h.2
      rw [hab, htl]

lemma pad_num_inj (w : Nat) : ∀ a b, pad_num w a = pad_num w b → a = b := by
  intro a b h
  have hd : ((pad_digits w a).reverse.map digit_char) = ((pad_digits w b).reverse.map digit_char) :=
    congrArg String.data h
  have hrev : (pad_digits w a).reverse = (pad_digits w b).reverse :=
    map_digit_char_inj _ _ (fun x hx => pad_digits_lt w a x (List.mem_reverse.mp hx))
      (fun x hx => pad_digits_lt w b x (List.mem_reverse.mp hx)) hd
  have hpd : pad_digits w a = pad_digits w b := List.reverse_injective hrev
  calc a = nat_val (pad_digits w a) := (nat_val_pad_digits w a).symm
    _ = nat_val (pad_digits w b) := by rw [hpd]
    _ = b := nat_val_pad_digits w b

/- ### Calendar dates and datetimes -/

/-- A calendar date, as carried by a Python `datetime`. -/
structure CalDate where
  year : Nat
  month : Nat
  day : Nat
deriving DecidableEq

/-- A Python `datetime`: a calendar date plus the minutes elapsed within
the day (time-of-day).  Seconds and finer resolution play no role in the
repository. -/
structure PyDateTime where
  date : CalDate
  tod : Nat
deriving DecidableEq

/-- `strftime` year field `%Y` (zero-padded to four digits). -/
def fmt_year (d : CalDate) : String := pad_num 4 d.year

/-- `strftime` month field `%m` (zero-padded to two digits). -/
def fmt_month (d : CalDate) : String := pad_num 2 d.month

/-- `strftime` day field `%d` (zero-padded to two digits). -/
def fmt_day (d : CalDate) : String := pad_num 2 d.day

/-- `strftime` compound field `%Y%m%d`. -/
def fmt_ymd (d : CalDate) : String := fmt_year d ++ fmt_month d ++ fmt_day d

/- ### `s3_uploader.py`: partitioned key derivation -/

/-- The S3 key computed by `S3DataUploader.upload_csv_data`: partition
components from `strftime` and the filename `transactions-<YYYYMMDD>.csv`. -/
def upload_csv_key (folder : String) (date : CalDate) : String :=
  let year := fmt_year date
  let month := fmt_month date
  let day := fmt_day date
  let filename := "transactions-" ++ fmt_ymd date ++ ".csv"
  folder ++ "/year=" ++ year ++ "/month=" ++ month ++ "/day=" ++ day ++ "/" ++ filename

/-- The S3 key computed by `S3DataUploader.upload_json_data`; identical to
the CSV key except for the `.json` extension. -/
def upload_json_key (folder : String) (date : CalDate) : String :=
  let year := fmt_year date
  let month := fmt_month date
  let day := fmt_day date
  let filename := "transactions-" ++ fmt_ymd date ++ ".json"
  folder ++ "/year=" ++ year ++ "/month=" ++ month ++ "/day=" ++ day ++ "/" ++ filename

/-- The storage-key format stated by the specification:
`<folder>/year=<YYYY>/month=<MM>/day=<DD>/transactions-<YYYYMMDD>.<ext>`,
a pure function of folder, date and extension. -/
def spec_storage_key (folder : String) (date : CalDate) (ext : String) : String :=
  folder ++ "/year=" ++ fmt_year date ++ "/month=" ++ fmt_month date ++
    "/day=" ++ fmt_day date ++ "/transactions-" ++ fmt_ymd date ++ "." ++ ext

lemma slash_transactions_merge (t : String) :
    "/" ++ ("transactions-" ++ t) = "/transactions-" ++ t := by
  rw [← String.append_assoc]
  rfl

lemma dot_ext_merge (ext : String) : "." ++ ext = String.mk ('.' :: ext.data) := rfl

/- ### `s3_uploader.py`: sample-data generator -/

/-- Gregorian leap-year test. -/
def is_leap (y : Nat) : Bool := (y % 4 == 0 && y % 100 != 0) || y % 400 == 0

/-- Number of days in a Gregorian month. -/
def days_in_month (y m : Nat) : Nat :=
  if m = 2 then (if is_leap y then 29 else 28)
  else if m = 4 ∨ m = 6 ∨ m = 9 ∨ m = 11 then 30
  else 31

/-- The calendar day after `d`. -/
def next_day (d : CalDate) : CalDate :=
  if d.day < days_in_month d.year d.month then ⟨d.year, d.month, d.day + 1⟩
  else if d.month < 12 then ⟨d.year, d.month + 1, 1⟩
  else ⟨d.year + 1, 1, 1⟩

/-- `d` advanced by `n` calendar days. -/
def advance_days (d : CalDate) : Nat → CalDate
  | 0 => d
  | n + 1 => next_day (advance_days d n)

/-- Python `datetime + timedelta(minutes=k)`: time-of-day advances modulo
a day and the calendar date rolls over accordingly. -/
def add_minutes (t : PyDateTime) (k : Nat) : PyDateTime :=
  ⟨advance_days t.date ((t.tod + k) / 1440), (t.tod + k) % 1440⟩

/-- Python `random.randint(lo, hi)` (inclusive bounds), driven by a raw
oracle value mapped into the range. -/
def randint (raw lo hi : Nat) : Nat := lo + raw % (hi - lo + 1)

/-- Oracle for the random draws `generate_sample_data` makes for record
`i`.  Amount draws stand for the already-rounded results of
`round(random.uniform(..), 2)`; choice draws are indices taken modulo the
choice-list length. -/
structure RandOracle where
  income_draw : Nat → Bool
  income_choice : Nat → Nat
  expense_choice : Nat → Nat
  income_amount : Nat → ℚ
  expense_amount : Nat → ℚ
  hour_raw : Nat → Nat
  minute_raw : Nat → Nat
  account_choice : Nat → Nat
  location_choice : Nat → Nat

/-- The `income_categories` list of `generate_sample_data`. -/
def income_categories : List (String × String) :=
  [("salary", "Monthly salary"), ("freelance", "Freelance project"),
   ("investment", "Investment returns"), ("bonus", "Performance bonus")]

/-- The `expense_categories` list of `generate_sample_data`. -/
def expense_categories : List (String × String) :=
  [("food", "Groceries"), ("food", "Restaurant"),
   ("transport", "Gas"), ("transport", "Public transport"),
   ("utilities", "Electricity bill"), ("utilities", "Internet bill"),
   ("entertainment", "Movie tickets"), ("entertainment", "Streaming service"),
   ("shopping", "Clothing"), ("shopping", "Electronics"),
   ("healthcare", "Doctor visit"), ("healthcare", "Pharmacy")]

/-- The account choice list of `generate_sample_data`. -/
def account_choices : List String := ["checking", "savings", "credit_card"]

/-- The location choice list of `generate_sample_data`. -/
def location_choices : List String :=
  ["Online", "New York", "Los Angeles", "Chicago", "Houston"]

/-- One generated transaction record.  The `date` and `timestamp` fields
are kept structurally (the source stores their `strftime` renderings). -/
structure GenRecord where
  transaction_id : String
  date : CalDate
  timestamp : PyDateTime
  amount : ℚ
  category : String
  description : String
  transaction_type : String
  account : String
  location : String
deriving DecidableEq

/-- The record built in iteration `i` of the loop in
`S3DataUploader.generate_sample_data`. -/
def make_record (g : RandOracle) (date : PyDateTime) (i : Nat) : GenRecord :=
  let is_income := g.income_draw i
  let cd := if is_income then
      income_categories.getD (g.income_choice i % income_categories.length) ("", "")
    else
      expense_categories.getD (g.expense_choice i % expense_categories.length) ("", "")
  let amount : ℚ := if is_income then g.income_amount i else -(g.expense_amount i)
  let transaction_time :=
    add_minutes date (60 * randint (g.hour_raw i) 6 22 + randint (g.minute_raw i) 0 59)
  { transaction_id := "TXN_" ++ fmt_ymd date.date ++ "_" ++ pad_num 4 (i + 1)
    date := transaction_time.date
    timestamp := transaction_time
    amount := amount
    category := cd.1
    description := cd.2
    transaction_type := if is_income then "income" else "expense"
    account := account_choices.getD (g.account_choice i % account_choices.length) ""
    location := location_choices.getD (g.location_choice i % location_choices.length) "" }

/-- `S3DataUploader.generate_sample_data`: `num_records` records built in
sequence. -/
def generate_sample_data (g : RandOracle) (date : PyDateTime) (num_records : Nat) : List GenRecord :=
  (List.range num_records).map (make_record g date)

lemma string_data_append (s t : String) : (s ++ t).data = s.data ++ t.data := rfl

lemma string_data_inj {s t : String} (h : s.data = t.data) : s = t := by
  cases s
  cases t
  exact congrArg String.mk h

/-- C8: for every date and count N, the generator produces exactly N
records, their transaction ids are pairwise distinct within the call, and
each id has the form `TXN_<YYYYMMDD>_<seq>` with 1-based sequence numbers
zero-padded to 4 digits. -/
theorem generator_count_and_unique_ids :
    ∀ (g : RandOracle) (date : PyDateTime) (n : Nat),
    (generate_sample_data g date n).length = n ∧
    ((generate_sample_data g date n).map (fun r => r.transaction_id)) =
      (List.range n).map (fun i => "TXN_" ++ fmt_ymd date.date ++ "_" ++ pad_num 4 (i + 1)) ∧
    ((generate_sample_data g date n).map (fun r => r.transaction_id)).Nodup := by
  intro g date n
  have hfmt : ((generate_sample_data g date n).map (fun r => r.transaction_id)) =
      (List.range n).map (fun i => "TXN_" ++ fmt_ymd date.date ++ "_" ++ pad_num 4 (i + 1)) := by
    simp only [generate_sample_data, List.map_map]
    rfl
  refine ⟨by simp [generate_sample_data], hfmt, ?_⟩
  rw [hfmt]
  refine (List.nodup_range n).map_on ?_
  intro x _ y _ h
  have hdata := congrArg String.data h
  simp only [string_data_append, List.append_assoc] at hdata
  have hpad : (pad_num 4 (x + 1)).data = (pad_num 4 (y + 1)).data :=
    List.append_cancel_left (List.append_cancel_left (List.append_cancel_left hdata))
  have := pad_num_inj 4 (x + 1) (y + 1) (string_data_inj hpad)
  omega

/-- C9 (amended): every generated record's `timestamp` lies on the same
calendar day as the record's own `date` field, and — provided the `date`
argument passed to the generator has time-of-day 00:00 — its time-of-day
lies between 06:00 and 22:59 inclusive (360..1379 minutes). -/
theorem generator_timestamp_same_day_and_range :
    ∀ (g : RandOracle) (date : PyDateTime) (n : Nat),
    ∀ r ∈ generate_sample_data g date n,
      r.date = r.timestamp.date ∧
      (date.tod = 0 → 360 ≤ r.timestamp.tod ∧ r.timestamp.tod ≤ 1379) := by
  intro g date n r hr
  obtain ⟨i, _, rfl⟩ := List.mem_map.mp hr
  refine ⟨rfl, ?_⟩
  intro h0
  simp only [make_record, add_minutes, randint, h0]
  constructor <;> omega

/-- Oracle that always answers zero. -/
def rand_zero : RandOracle :=
  ⟨fun _ => false, fun _ => 0, fun _ => 0, fun _ => 0, fun _ => 0,
   fun _ => 0, fun _ => 0, fun _ => 0, fun _ => 0⟩

/-- A `date` argument whose time-of-day is 23:00. -/
def late_evening : PyDateTime := ⟨⟨2024, 7, 26⟩, 1380⟩

/-- C9 counterexample: with a `date` argument at 23:00, the single
generated record's timestamp has time-of-day 05:00 (300 minutes), outside
the claimed 06:00–22:59 window — the claim fails for date arguments whose
time-of-day is not midnight. -/
theorem generator_timestamp_range_counterexample :
    ((generate_sample_data rand_zero late_evening 1).map (fun r => r.timestamp.tod)) = [300] ∧
    ¬ (360 ≤ 300 ∧ 300 ≤ 1379) := by
  constructor
  · rfl
  · decide

/-- Witness for C9 at a midnight date argument: the record generated for
2024-07-26 00:00 by the zero oracle has its timestamp on its own date
field's day, with time-of-day inside 360..1379. -/
theorem generator_timestamp_same_day_and_range_witness :
    (make_record rand_zero ⟨⟨2024, 7, 26⟩, 0⟩ 0).date =
      (make_record rand_zero ⟨⟨2024, 7, 26⟩, 0⟩ 0).timestamp.date ∧
    360 ≤ (make_record rand_zero ⟨⟨2024, 7, 26⟩, 0⟩ 0).timestamp.tod ∧
    (make_record rand_zero ⟨⟨2024, 7, 26⟩, 0⟩ 0).timestamp.tod ≤ 1379 := by
  have h := generator_timestamp_same_day_and_range rand_zero ⟨⟨2024, 7, 26⟩, 0⟩ 1
    (make_record rand_zero ⟨⟨2024, 7, 26⟩, 0⟩ 0)
    (by simp [generate_sample_data, List.range_succ])
  exact ⟨h.1, (h.2 rfl).1, (h.2 rfl).2⟩

/- ### `lambda_function.py`: transform stage -/

/-- Python `abs` on a number. -/
def py_abs (q : ℚ) : ℚ := if q < 0 then -q else q

lemma py_abs_eq_abs (q : ℚ) : py_abs q = |q| := by
  unfold py_abs
  rcases lt_or_le q 0 with h | h
  · rw [if_pos h, abs_of_neg h]
  · rw [if_neg (not_lt.mpr h), abs_of_nonneg h]

/-- `categorize_amount` from `lambda_function.py`: `unknown` for a
missing (NaN) amount, otherwise thresholds on the absolute amount. -/
def categorize_amount : Option ℚ → String
  | none => "unknown"
  | some amount =>
    let abs_amount := py_abs amount
    if abs_amount < 25 then "small"
    else if abs_amount < 100 then "medium"
    else if abs_amount < 500 then "large"
    else "very_large"

/-- Python `str.strip()`: drop whitespace from both ends. -/
def py_strip (cs : List Char) : List Char :=
  ((cs.dropWhile Char.isWhitespace).reverse.dropWhile Char.isWhitespace).reverse

/-- Worker for Python `str.title()`: upper-case a letter that does not
follow a letter, lower-case a letter that does. -/
def py_title_go : Bool → List Char → List Char
  | _, [] => []
  | prev, c :: rest =>
    (if c.isAlpha then (if prev then c.toLower else c.toUpper) else c) ::
      py_title_go c.isAlpha rest

/-- Python `str.title()`. -/
def py_title (cs : List Char) : List Char := py_title_go false cs

/-- `astype(str)` on one cell: a present string stays itself, a missing
cell (float NaN) is stringified to `"nan"`. -/
def py_str_of_cell : Option String → String
  | some s => s
  | none => "nan"

/-- The per-cell effect of the text-cleaning loop
`astype(str).str.strip().str.title()` in `transform_data`. -/
def clean_text (cell : Option String) : String :=
  ⟨py_title (py_strip (py_str_of_cell cell).data)⟩

/-- `pandas.Timestamp.day_name()` via Zeller's congruence. -/
def day_name (d : CalDate) : String :=
  let m := if d.month ≤ 2 then d.month + 12 else d.month
  let y := if d.month ≤ 2 then d.year - 1 else d.year
  let k := y % 100
  let j := y / 100
  let h := (d.day + (13 * (m + 1)) / 5 + k + k / 4 + j / 4 + 5 * j) % 7
  ["Saturday", "Sunday", "Monday", "Tuesday", "Wednesday", "Thursday", "Friday"].getD h ""

/-- One row of the raw CSV as the pipeline observes it.  Each field is
`none` when the cell is missing (NaN).  The `amount`, `date` and
`timestamp` cells carry the value their later coercion will produce
(`some none` = present but not coercible); `timestamp` values are kept
abstract as naturals. -/
structure RawRow where
  transaction_id : Option String
  amount : Option (Option ℚ)
  date : Option (Option CalDate)
  timestamp : Option (Option Nat)
  category : Option String
  description : Option String
  transaction_type : Option String
  account : Option String
  location : Option String
deriving DecidableEq

/-- One row after `transform_data`: coerced fields, processing metadata,
derived amount and date columns, cleaned text columns, with the untouched
`transaction_type` and `account` columns carried through. -/
structure TransRow where
  transaction_id : Option String
  amount : Option ℚ
  date : Option CalDate
  timestamp : Option Nat
  category : String
  description : String
  transaction_type : Option String
  account : Option String
  location : String
  processed_timestamp : Nat
  processed_by : String
  amount_category : String
  amount_abs : Option ℚ
  day_of_week : Option String
  month : Option Nat
  year : Option Nat
deriving DecidableEq

/-- The `dropna(subset=['transaction_id', 'amount'])` keep-condition:
both critical cells present. -/
def keep_row (r : RawRow) : Bool :=
  r.transaction_id.isSome && r.amount.isSome

/-- `dropna(subset=['transaction_id', 'amount'])` over the table. -/
def dropna_critical (rows : List RawRow) : List RawRow :=
  rows.filter keep_row

/-- The combined per-row effect of the column operations of
`transform_data` (type coercions, metadata stamping, amount and date
derivations, text cleaning), which are all elementwise. -/
def transform_row (now : Nat) (r : RawRow) : TransRow :=
  let amount : Option ℚ := r.amount.bind id
  let date : Option CalDate := r.date.bind id
  { transaction_id := r.transaction_id
    amount := amount
    date := date
    timestamp := r.timestamp.bind id
    category := clean_text r.category
    description := clean_text r.description
    transaction_type := r.transaction_type
    account := r.account
    location := clean_text r.location
    processed_timestamp := now
    processed_by := "lambda-etl-pipeline"
    amount_category := categorize_amount amount
    amount_abs := amount.map py_abs
    day_of_week := date.map day_name
    month := date.map (fun d => d.month)
    year := date.map (fun d => d.year) }

/-- `transform_data` from `lambda_function.py`: drop rows missing the
critical cells, then apply the elementwise column transformations. -/
def transform_data (now : Nat) (rows : List RawRow) : List TransRow :=
  (dropna_critical rows).map (transform_row now)

lemma length_filter_partition (p : RawRow → Bool) (rows : List RawRow) :
    (rows.filter p).length + (rows.filter (fun r => !(p r))).length = rows.length := by
  induction rows with
  | nil => rfl
  | cons r rest ih =>
    by_cases h : p r <;> simp [List.filter, h] <;> omega

/-- A concrete ten-row input in which exactly rows 3 and 7 lack `amount`. -/
def ten_row_example : List RawRow :=
  (List.range 10).map (fun i =>
    { transaction_id := some ("T" ++ pad_num 4 (i + 1))
      amount := if i = 2 ∨ i = 6 then none else some (some 10)
      date := none
      timestamp := none
      category := none
      description := none
      transaction_type := none
      account := none
      location := none })

/-- C2: the transform output consists of exactly the transformed versions
of those input rows that have both `transaction_id` and `amount` present;
the output count never exceeds the input count and equals the input count
minus the number of dropped rows; on a ten-row input where two rows lack
`amount`, eight rows come out. -/
theorem transform_drops_exactly_missing_critical :
    (∀ now rows, (transform_data now rows).length ≤ rows.length) ∧
    (∀ now rows, (transform_data now rows).length +
      (rows.filter (fun r => !(keep_row r))).length = rows.length) ∧
    (∀ now rows, ∀ r ∈ rows, keep_row r = true →
      transform_row now r ∈ transform_data now rows) ∧
    (∀ now rows, ∀ o ∈ transform_data now rows,
      ∃ r, r ∈ rows ∧ keep_row r = true ∧ o = transform_row now r) ∧
    (transform_data 0 ten_row_example).length = 8 := by
  have hlen : ∀ (now : Nat) rows, (transform_data now rows).length +
      (rows.filter (fun r => !(keep_row r))).length = rows.length := by
    intro now rows
    rw [transform_data, List.length_map]
    exact length_filter_partition keep_row rows
  refine ⟨?_, hlen, ?_, ?_, ?_⟩
  · intro now rows
    have := hlen now rows
    omega
  · intro now rows r hr hk
    exact List.mem_map_of_mem _ (List.mem_filter.mpr ⟨hr, hk⟩)
  · intro now rows o ho
    obtain ⟨r, hr, rfl⟩ := List.mem_map.mp ho
    have hf := List.mem_filter.mp hr
    exact ⟨r, hf.1, hf.2, rfl⟩
  · rfl

/-- Witness for C2 on a two-row table: the kept row's transform is in the
output and every output row arises from a kept input row. -/
theorem transform_drops_exactly_missing_critical_witness :
    (transform_data 0 [⟨some "a", some (some 1), none, none, none, none, none, none, none⟩,
       ⟨some "b", none, none, none, none, none, none, none, none⟩]).length ≤ 2 ∧
    transform_row 0 ⟨some "a", some (some 1), none, none, none, none, none, none, none⟩ ∈
      transform_data 0 [⟨some "a", some (some 1), none, none, none, none, none, none, none⟩,
        ⟨some "b", none, none, none, none, none, none, none, none⟩] := by
  constructor
  · exact transform_drops_exactly_missing_critical.1 0 _
  · exact transform_drops_exactly_missing_critical.2.2.1 0 _ _ (by simp) (by decide)

/-- C1: on every transformed row, `amount_category` is `unknown` when the
coerced amount is missing, and otherwise is fixed by thresholds on the
absolute amount (`py_abs` agrees with the mathematical absolute value by
`py_abs_eq_abs`); the boundary absolute values 24.99, 25.00, 99.99,
100.00, 499.99 and 500.00 map to small, medium, medium, large, large and
very_large, and a missing amount to unknown. -/
theorem amount_category_thresholds :
    (∀ now r, (transform_row now r).amount = none →
      (transform_row now r).amount_category = "unknown") ∧
    (∀ now r q, (transform_row now r).amount = some q →
      ((|q| < 25 → (transform_row now r).amount_category = "small") ∧
       (25 ≤ |q| → |q| < 100 → (transform_row now r).amount_category = "medium") ∧
       (100 ≤ |q| → |q| < 500 → (transform_row now r).amount_category = "large") ∧
       (500 ≤ |q| → (transform_row now r).amount_category = "very_large"))) ∧
    categorize_amount (some 24.99) = "small" ∧
    categorize_amount (some 25.00) = "medium" ∧
    categorize_amount (some 99.99) = "medium" ∧
    categorize_amount (some 100.00) = "large" ∧
    categorize_amount (some 499.99) = "large" ∧
    categorize_amount (some 500.00) = "very_large" ∧
    categorize_amount none = "unknown" := by
  have hcat : ∀ q : ℚ, categorize_amount (some q) =
      (if |q| < 25 then "small" else if |q| < 100 then "medium"
       else if |q| < 500 then "large" else "very_large") := by
    intro q
    simp only [categorize_amount, py_abs_eq_abs]
  have habs : ∀ q : ℚ, 0 ≤ q → |q| = q := fun q hq => abs_of_nonneg hq
  refine ⟨?_, ?_, ?_, ?_, ?_, ?_, ?_, ?_, rfl⟩
  · intro now r h
    simp only [transform_row] at h ⊢
    rw [h]
    rfl
  · intro now r q h
    simp only [transform_row] at h ⊢
    rw [h, hcat q]
    refine ⟨fun h1 => by rw [if_pos h1], fun h1 h2 => ?_, fun h1 h2 => ?_, fun h1 => ?_⟩
    · rw [if_neg (not_lt.mpr h1), if_pos h2]
    · rw [if_neg (not_lt.mpr (by linarith)), if_neg (not_lt.mpr h1), if_pos h2]
    · rw [if_neg (not_lt.mpr (by linarith)), if_neg (not_lt.mpr (by linarith)),
        if_neg (not_lt.mpr h1)]
  · rw [hcat, habs _ (by norm_num : (0 : ℚ) ≤ 24.99)]
    norm_num
  · rw [hcat, habs _ (by norm_num : (0 : ℚ) ≤ 25.00)]
    norm_num
  · rw [hcat, habs _ (by norm_num : (0 : ℚ) ≤ 99.99)]
    norm_num
  · rw [hcat, habs _ (by norm_num : (0 : ℚ) ≤ 100.00)]
    norm_num
  · rw [hcat, habs _ (by norm_num : (0 : ℚ) ≤ 499.99)]
    norm_num
  · rw [hcat, habs _ (by norm_num : (0 : ℚ) ≤ 500.00)]
    norm_num

/-- A kept row whose coerced amount is -24.99. -/
def small_amount_row : RawRow :=
  ⟨some "t1", some (some (-24.99)), none, none, none, none, none, none, none⟩

/-- Witness for C1: a row with missing amount is categorized `unknown`,
and a row with coerced amount -24.99 is categorized `small`. -/
theorem amount_category_thresholds_witness :
    (transform_row 0 ⟨some "t0", some none, none, none, none, none, none, none, none⟩
      ).amount_category = "unknown" ∧
    (transform_row 0 small_amount_row).amount_category = "small" := by
  constructor
  · exact amount_category_thresholds.1 0 _ rfl
  · exact ((amount_category_thresholds.2.1 0 small_amount_row (-24.99) rfl).1
      (abs_lt.mpr ⟨by norm_num, by norm_num⟩))

/-- C10: in the transform stage, a missing text cell (`description`,
`category` or `location`) on a surviving row is not preserved as null:
it is stringified and title-cased, so the output row carries the literal
string `Nan` in that field. -/
theorem missing_text_becomes_Nan :
    ∀ now rows, ∀ r ∈ rows, keep_row r = true →
      (transform_row now r ∈ transform_data now rows) ∧
      (r.description = none → (transform_row now r).description = "Nan") ∧
      (r.category = none → (transform_row now r).category = "Nan") ∧
      (r.location = none → (transform_row now r).location = "Nan") := by
  intro now rows r hr hk
  refine ⟨List.mem_map_of_mem _ (List.mem_filter.mpr ⟨hr, hk⟩), ?_, ?_, ?_⟩
  all_goals intro h
  all_goals simp only [transform_row, h]
  all_goals rfl

/-- A kept row with all three text cells missing. -/
def null_text_row : RawRow :=
  ⟨some "t2", some (some 1), none, none, none, none, none, none, none⟩

/-- Witness for C10: on a concrete surviving row with missing text cells,
the transformed row carries the literal string `Nan` in all three text
fields. -/
theorem missing_text_becomes_Nan_witness :
    (transform_row 0 null_text_row).description = "Nan" ∧
    (transform_row 0 null_text_row).category = "Nan" ∧
    (transform_row 0 null_text_row).location = "Nan" := by
  have h := missing_text_becomes_Nan 0 [null_text_row] null_text_row (by simp) (by decide)
  exact ⟨h.2.1 rfl, h.2.2.1 rfl, h.2.2.2 rfl⟩

/- ### `lambda_function.py`: write-back key derivation -/

/-- Python `str.replace`, on character lists: replace every
non-overlapping occurrence of `pat`, scanning left to right.  Fuel keeps
the recursion structural; `py_replace` supplies enough fuel.  (Python's
behaviour for an empty pattern is not modelled; both patterns used by the
source are non-empty.) -/
def py_replace_fuel (pat rep : List Char) : Nat → List Char → List Char
  | _, [] => []
  | 0, s => s
  | fuel + 1, c :: rest =>
    if !pat.isEmpty && pat.isPrefixOf (c :: rest) then
      rep ++ py_replace_fuel pat rep fuel (rest.drop (pat.length - 1))
    else c :: py_replace_fuel pat rep fuel rest

/-- Python `str.replace` on character lists. -/
def py_replace (pat rep s : List Char) : List Char :=
  py_replace_fuel pat rep s.length s

/-- The `processed_key` computed by `save_processed_data`:
`original_key.replace('raw-data', 'processed-data').replace('.csv', '.json')`. -/
def processed_key (original_key : String) : String :=
  ⟨py_replace ".csv".data ".json".data
    (py_replace "raw-data".data "processed-data".data original_key.data)⟩

lemma py_replace_fuel_congr (pat rep : List Char) :
    ∀ f1 f2 s, s.length ≤ f1 → s.length ≤ f2 →
      py_replace_fuel pat rep f1 s = py_replace_fuel pat rep f2 s := by
  intro f1
  induction f1 with
  | zero =>
    intro f2 s h1 _
    match s with
    | [] =>
      cases f2 <;> rfl
    | c :: rest => simp at h1
  | succ f1 ih =>
    intro f2 s h1 h2
    match s with
    | [] => cases f2 <;> rfl
    | c :: rest =>
      match f2 with
      | 0 => simp at h2
      | f2 + 1 =>
        simp only [py_replace_fuel]
        by_cases hc : (!pat.isEmpty && pat.isPrefixOf (c :: rest)) = true
        · rw [if_pos hc, if_pos hc]
          have hd : (rest.drop (pat.length - 1)).length ≤ rest.length := by
            simp [List.length_drop]
          simp only [List.length_cons] at h1 h2
          rw [ih f2 _ (by omega) (by omega)]
        · rw [if_neg hc, if_neg hc]
          simp only [List.length_cons] at h1 h2
          rw [ih f2 rest (by omega) (by omega)]

lemma py_replace_nil (pat rep : List Char) : py_replace pat rep [] = [] := rfl

lemma py_replace_cons (pat rep : List Char) (c : Char) (rest : List Char) :
    py_replace pat rep (c :: rest) =
      if !pat.isEmpty && pat.isPrefixOf (c :: rest) then
        rep ++ py_replace pat rep (rest.drop (pat.length - 1))
      else c :: py_replace pat rep rest := by
  rw [py_replace, List.length_cons, py_replace_fuel]
  by_cases hc : (!pat.isEmpty && pat.isPrefixOf (c :: rest)) = true
  · rw [if_pos hc, if_pos hc, py_replace,
      py_replace_fuel_congr pat rep rest.length (rest.drop (pat.length - 1)).length
        (rest.drop (pat.length - 1)) (by simp [List.length_drop]) le_rfl]
  · rw [if_neg hc, if_neg hc, py_replace]

/-- A match at the head of the string is replaced and scanning resumes
after it. -/
lemma py_replace_head_match (pat rep tail : List Char) (hp : pat ≠ []) :
    py_replace pat rep (pat ++ tail) = rep ++ py_replace pat rep tail := by
  match pat, hp with
  | p :: pt, _ =>
    rw [List.cons_append, py_replace_cons]
    have hpre : ((p :: pt).isPrefixOf ((p :: pt) ++ tail)) = true := by
      simp [List.isPrefixOf_iff_prefix]
    have hcond : (!(p :: pt).isEmpty && (p :: pt).isPrefixOf (p :: (pt ++ tail))) = true := by
      simp only [List.isEmpty_cons, Bool.not_false, Bool.true_and]
      exact hpre
    rw [if_pos hcond]
    simp only [List.length_cons, Nat.add_sub_cancel, List.drop_left]

/-- When no occurrence of `pat` starts inside `xs`, replacement copies
`xs` and continues in `tail`. -/
lemma py_replace_append_no_match (pat rep : List Char) :
    ∀ xs tail, (∀ i, i < xs.length → pat.isPrefixOf ((xs ++ tail).drop i) = false) →
      py_replace pat rep (xs ++ tail) = xs ++ py_replace pat rep tail := by
  intro xs
  induction xs with
  | nil => intro tail _; rfl
  | cons x xs ih =>
    intro tail h
    rw [List.cons_append, py_replace_cons]
    have h0 := h 0 (by simp)
    simp only [List.drop_zero, List.cons_append] at h0
    rw [if_neg (by simp [h0])]
    rw [ih tail (fun i hi => by simpa using h (i + 1) (Nat.succ_lt_succ hi))]
    rfl

/-- With no occurrence of `pat` anywhere, replacement is the identity. -/
lemma py_replace_no_match (pat rep : List Char) (s : List Char)
    (h : ∀ i, i < s.length → pat.isPrefixOf (s.drop i) = false) :
    py_replace pat rep s = s := by
  have := py_replace_append_no_match pat rep s [] (by simpa using h)
  simpa [py_replace_nil] using this

/-- C6 counterexample: Python `str.replace` replaces every occurrence, so
for the source key `raw-data/raw-data-backup/t.csv` the write-back key
also rewrites the second `raw-data` segment, and is not the key the claim
describes (folder segment replaced, rest unchanged). -/
theorem processed_key_counterexample :
    processed_key "raw-data/raw-data-backup/t.csv" =
      "processed-data/processed-data-backup/t.json" ∧
    processed_key "raw-data/raw-data-backup/t.csv" ≠
      "processed-data/raw-data-backup/t.json" := by
  constructor
  · rfl
  · decide

/-- C6 (amended): the write-back key replaces every occurrence of
`raw-data` by `processed-data` and every occurrence of `.csv` by `.json`
in the source key; for a key `raw-data/<mid>.csv` in which `raw-data`
occurs only as the folder segment and `.csv` only as the extension — as
with every key the generator produces — this replaces exactly the folder
segment and the extension, leaving the rest of the key unchanged. -/
theorem processed_key_standard_form (mid : List Char)
    (h1 : ∀ i, i < ('/' :: mid ++ ".csv".data).length →
      ("raw-data".data).isPrefixOf (('/' :: mid ++ ".csv".data).drop i) = false)
    (h2 : ∀ i, i < ("processed-data/".data ++ mid).length →
      (".csv".data).isPrefixOf ((("processed-data/".data ++ mid) ++ ".csv".data).drop i) = false) :
    processed_key ⟨"raw-data/".data ++ mid ++ ".csv".data⟩ =
      ⟨"processed-data/".data ++ mid ++ ".json".data⟩ := by
  apply string_data_inj
  show py_replace ".csv".data ".json".data
      (py_replace "raw-data".data "processed-data".data
        (("raw-data/".data ++ mid) ++ ".csv".data)) =
    ("processed-data/".data ++ mid) ++ ".json".data
  have e1 : (("raw-data/".data ++ mid) ++ ".csv".data) =
      "raw-data".data ++ ('/' :: (mid ++ ".csv".data)) := by
    rw [show "raw-data/".data = "raw-data".data ++ ['/'] from rfl, List.append_assoc,
      List.append_assoc]
    rfl
  have h1a : ∀ i, i < ('/' :: (mid ++ ".csv".data)).length →
      ("raw-data".data).isPrefixOf (('/' :: (mid ++ ".csv".data)).drop i) = false := h1
  rw [e1, py_replace_head_match "raw-data".data "processed-data".data _ (by decide),
    py_replace_no_match "raw-data".data "processed-data".data _ h1a]
  have e2 : "processed-data".data ++ ('/' :: (mid ++ ".csv".data)) =
      ("processed-data/".data ++ mid) ++ ".csv".data := by
    rw [show "processed-data/".data = "processed-data".data ++ ['/'] from rfl,
      List.append_assoc, List.append_assoc]
    rfl
  rw [e2, py_replace_append_no_match ".csv".data ".json".data _ _ h2]
  have e3 : py_replace ".csv".data ".json".data ".csv".data = ".json".data := rfl
  rw [e3]

/-- Witness for C6 (amended) at the path segment produced by the key
generator for 2024-07-26: the write-back key swaps the folder segment and
the extension and keeps the date-partition path and filename stem. -/
theorem processed_key_standard_form_witness :
    processed_key ⟨"raw-data/".data ++
        "year=2024/month=07/day=26/transactions-20240726".data ++ ".csv".data⟩ =
      ⟨"processed-data/".data ++
        "year=2024/month=07/day=26/transactions-20240726".data ++ ".json".data⟩ :=
  processed_key_standard_form "year=2024/month=07/day=26/transactions-20240726".data
    (by decide) (by decide)

/- ### `lambda_function.py`: Redshift configuration gate and upsert -/

/-- The truthiness Python applies to `os.environ.get(var)` results: a
missing variable (`None`) and an empty string are both falsy. -/
def py_truthy (s : String) : Bool := s != ""

/-- The `required_vars` list of `is_redshift_configured`. -/
def required_vars : List String :=
  ["REDSHIFT_HOST", "REDSHIFT_PORT", "REDSHIFT_DB", "REDSHIFT_USER", "REDSHIFT_PASSWORD"]

/-- `is_redshift_configured` from `lambda_function.py`:
`all(os.environ.get(var) for var in required_vars)`. -/
def is_redshift_configured (env : String → Option String) : Bool :=
  required_vars.all fun v =>
    match env v with
    | some s => py_truthy s
    | none => false

/-- One row of the warehouse table `portfolio_transactions` (the columns
of the CREATE TABLE / INSERT statement in `load_to_redshift`). -/
structure DBRow where
  transaction_id : Option String
  date : Option CalDate
  timestamp : Option Nat
  amount : Option ℚ
  amount_abs : Option ℚ
  amount_category : String
  category : String
  description : String
  transaction_type : Option String
  account : Option String
  location : String
  day_of_week : Option String
  month : Option Nat
  year : Option Nat
  processed_timestamp : Nat
  processed_by : String
  source_file : String
deriving DecidableEq

/-- The tuple bound by `cursor.execute` for one transformed row. -/
def to_db_row (r : TransRow) (source_file : String) : DBRow :=
  { transaction_id := r.transaction_id
    date := r.date
    timestamp := r.timestamp
    amount := r.amount
    amount_abs := r.amount_abs
    amount_category := r.amount_category
    category := r.category
    description := r.description
    transaction_type := r.transaction_type
    account := r.account
    location := r.location
    day_of_week := r.day_of_week
    month := r.month
    year := r.year
    processed_timestamp := r.processed_timestamp
    processed_by := r.processed_by
    source_file := source_file }

/-- The effect on the table of the INSERT ... ON CONFLICT (transaction_id)
DO UPDATE SET amount = EXCLUDED.amount,
processed_timestamp = EXCLUDED.processed_timestamp statement: insert when
the key is absent, otherwise update exactly those two columns of the
conflicting row. -/
def upsert (table : List DBRow) (new : DBRow) : List DBRow :=
  if table.any (fun r => decide (r.transaction_id = new.transaction_id)) then
    table.map (fun r =>
      if r.transaction_id = new.transaction_id then
        { r with amount := new.amount, processed_timestamp := new.processed_timestamp }
      else r)
  else table ++ [new]

/-- The row loop of `load_to_redshift`: upsert each transformed row in
order into the warehouse table. -/
def load_to_redshift (table : List DBRow) (rows : List TransRow) (source_file : String) :
    List DBRow :=
  rows.foldl (fun acc r => upsert acc (to_db_row r source_file)) table

/- ### `lambda_function.py`: handler -/

/-- Python `str.startswith`. -/
def py_startswith (s pre : String) : Bool := pre.data.isPrefixOf s.data

/-- Observable side effects of one handler invocation. -/
inductive S3Effect where
  | getObject (bucket key : String)
  | putObject (bucket key : String)
  | redshiftLoad (source_file : String)
deriving DecidableEq

/-- The body of the handler result. -/
inductive HandlerBody where
  | skipped
  | completed (records_processed : Nat) (source_file : String)
deriving DecidableEq

/-- The handler return value. -/
structure HandlerResult where
  statusCode : Nat
  body : HandlerBody
deriving DecidableEq

/-- `lambda_handler` from `lambda_function.py` on the happy path: the
routing guard, then read, transform, the configuration-gated Redshift
load, and the write-back, with the side effects it performs recorded in
order. -/
def lambda_handler (env : String → Option String) (bucket_name object_key : String)
    (file_rows : List RawRow) (now : Nat) : HandlerResult × List S3Effect :=
  if !py_startswith object_key "raw-data/" then
    ({ statusCode := 200, body := .skipped }, [])
  else
    let transformed := transform_data now file_rows
    let load_effects :=
      if is_redshift_configured env then [S3Effect.redshiftLoad object_key] else []
    ({ statusCode := 200, body := .completed transformed.length object_key },
      S3Effect.getObject bucket_name object_key :: load_effects ++
        [S3Effect.putObject bucket_name (processed_key object_key)])

/-- C3: whenever the event key does not start with `raw-data/`, the
handler returns a successful skipped result and performs no side effects
at all. -/
theorem handler_skips_non_raw_keys :
    ∀ (env : String → Option String) (bucket key : String) (rows : List RawRow) (now : Nat),
      py_startswith key "raw-data/" = false →
      lambda_handler env bucket key rows now =
        ({ statusCode := 200, body := .skipped }, []) := by
  intro env bucket key rows now h
  simp [lambda_handler, h]

/-- Witness for C3: the event key `processed-data/x.csv` is skipped with
no side effects. -/
theorem handler_skips_non_raw_keys_witness :
    lambda_handler (fun _ => none) "bucket" "processed-data/x.csv" [] 0 =
      ({ statusCode := 200, body := .skipped }, []) :=
  handler_skips_non_raw_keys (fun _ => none) "bucket" "processed-data/x.csv" [] 0 (by decide)

/-- An environment in which all five Redshift variables are present but
hold the empty string. -/
def env_all_empty : String → Option String := fun _ => some ""

/-- C7 counterexample: with all five connection variables present in the
environment but empty, the gate is off — presence alone does not enable
the load stage, because Python truthiness treats the empty string as
false. -/
theorem redshift_gate_counterexample :
    (required_vars.all fun v => (env_all_empty v).isSome) = true ∧
    is_redshift_configured env_all_empty = false := by
  constructor
  · rfl
  · rfl

/-- C7 (amended): the load stage runs if and only if all five connection
variables are present with a non-empty value; whenever the gate is off,
an invocation on a raw-data key still completes with the read and
write-back effects and no load effect. -/
theorem redshift_gate_iff_nonempty_vars :
    (∀ env : String → Option String,
      is_redshift_configured env = true ↔
        ∀ v ∈ required_vars, ∃ s, env v = some s ∧ s ≠ "") ∧
    (∀ (env : String → Option String) (bucket key : String) (rows : List RawRow) (now : Nat),
      py_startswith key "raw-data/" = true →
      is_redshift_configured env = false →
      (lambda_handler env bucket key rows now).2 =
        [S3Effect.getObject bucket key,
         S3Effect.putObject bucket (processed_key key)] ∧
      (lambda_handler env bucket key rows now).1 =
        { statusCode := 200,
          body := .completed (transform_data now rows).length key }) := by
  constructor
  · intro env
    rw [is_redshift_configured, List.all_eq_true]
    constructor
    · intro h v hv
      have hx := h v hv
      cases he : env v with
      | none => rw [he] at hx; simp at hx
      | some s =>
        rw [he] at hx
        refine ⟨s, rfl, ?_⟩
        simpa [py_truthy] using hx
    · intro h v hv
      obtain ⟨s, hs, hne⟩ := h v hv
      rw [hs]
      simpa [py_truthy] using hne
  · intro env bucket key rows now hk hcfg
    rw [lambda_handler]
    rw [hk]
    simp [hcfg]

/-- An environment missing `REDSHIFT_HOST` but carrying the other four
variables. -/
def env_no_host : String → Option String :=
  fun v => if v = "REDSHIFT_HOST" then none else some "x"

/-- Witness for C7 (amended): with `REDSHIFT_HOST` absent the gate is
off, and an invocation on a raw-data key performs exactly the read and
write-back effects and completes with status 200. -/
theorem redshift_gate_iff_nonempty_vars_witness :
    (lambda_handler env_no_host "bucket" "raw-data/x.csv" [] 0).2 =
      [S3Effect.getObject "bucket" "raw-data/x.csv",
       S3Effect.putObject "bucket" (processed_key "raw-data/x.csv")] ∧
    (lambda_handler env_no_host "bucket" "raw-data/x.csv" [] 0).1 =
      { statusCode := 200, body := .completed (transform_data 0 []).length "raw-data/x.csv" } :=
  redshift_gate_iff_nonempty_vars.2 env_no_host "bucket" "raw-data/x.csv" [] 0
    (by decide) (by decide)

/-- C5: on a key conflict the upsert updates only the `amount` and
`processed_timestamp` columns of the conflicting row and preserves every
other row; upserting the same `transaction_id` twice into a table that
did not contain it leaves exactly one row with that id, holding the
latest `amount` and `processed_timestamp` and the first insert's values
in every other column. -/
theorem upsert_updates_only_amount_and_timestamp :
    (∀ table new, ∀ r ∈ table, r.transaction_id ≠ new.transaction_id →
      r ∈ upsert table new) ∧
    (∀ table new, (∃ r ∈ table, r.transaction_id = new.transaction_id) →
      (upsert table new).length = table.length ∧
      ∀ r ∈ table, r.transaction_id = new.transaction_id →
        { r with amount := new.amount,
                 processed_timestamp := new.processed_timestamp } ∈ upsert table new) ∧
    (∀ table x y, (∀ r ∈ table, r.transaction_id ≠ x.transaction_id) →
      y.transaction_id = x.transaction_id →
      (upsert (upsert table x) y).filter
          (fun r => decide (r.transaction_id = x.transaction_id)) =
        [{ x with amount := y.amount, processed_timestamp := y.processed_timestamp }]) := by
  refine ⟨?_, ?_, ?_⟩
  · intro table new r hr hne
    rw [upsert]
    by_cases hany : (table.any fun r => decide (r.transaction_id = new.transaction_id)) = true
    · rw [if_pos hany]
      have : (if r.transaction_id = new.transaction_id then
          { r with amount := new.amount,
                   processed_timestamp := new.processed_timestamp } else r) = r :=
        if_neg hne
      exact this ▸ List.mem_map_of_mem _ hr
    · rw [if_neg hany]
      exact List.mem_append_left _ hr
  · intro table new hex
    have hany : (table.any fun r => decide (r.transaction_id = new.transaction_id)) = true := by
      obtain ⟨r, hr, he⟩ := hex
      exact List.any_eq_true.mpr ⟨r, hr, by simp [he]⟩
    rw [upsert, if_pos hany]
    refine ⟨List.length_map _ _, ?_⟩
    intro r hr he
    have : (if r.transaction_id = new.transaction_id then
        { r with amount := new.amount,
                 processed_timestamp := new.processed_timestamp } else r) =
        { r with amount := new.amount, processed_timestamp := new.processed_timestamp } :=
      if_pos he
    exact this ▸ List.mem_map_of_mem _ hr
  · intro table x y hfresh hy
    have hstep1 : upsert table x = table ++ [x] := by
      rw [upsert, if_neg]
      intro hcon
      rw [List.any_eq_true] at hcon
      obtain ⟨r, hr, he⟩ := hcon
      exact hfresh r hr (of_decide_eq_true he)
    have hany2 : ((table ++ [x]).any fun r => decide (r.transaction_id = y.transaction_id)) = true :=
      List.any_eq_true.mpr ⟨x, List.mem_append_right _ (by simp), by simp [hy]⟩
    rw [hstep1, upsert, if_pos hany2, List.map_append]
    have hmap : table.map (fun r =>
        if r.transaction_id = y.transaction_id then
          { r with amount := y.amount, processed_timestamp := y.processed_timestamp }
        else r) = table := by
      rw [List.map_congr_left (fun r hr => if_neg (by rw [hy]; exact hfresh r hr))]
      simp
    have hx : [x].map (fun r =>
        if r.transaction_id = y.transaction_id then
          { r with amount := y.amount, processed_timestamp := y.processed_timestamp }
        else r) = [{ x with amount := y.amount, processed_timestamp := y.processed_timestamp }] := by
      simp [hy.symm]
    rw [hmap, hx, List.filter_append]
    have hfilter1 : table.filter (fun r => decide (r.transaction_id = x.transaction_id)) = [] := by
      rw [List.filter_eq_nil_iff]
      intro r hr
      simpa using hfresh r hr
    rw [hfilter1]
    simp

/-- A first insert for transaction `t1`. -/
def first_insert_row : DBRow :=
  ⟨some "t1", none, none, some 5, some 5, "small", "Food", "Groceries", some "expense",
   some "checking", "Online", none, none, none, 1, "lambda-etl-pipeline", "raw-data/f.csv"⟩

/-- A later upsert for the same transaction id with a different amount
and processing timestamp. -/
def second_insert_row : DBRow :=
  { first_insert_row with amount := some 7, processed_timestamp := 2 }

/-- The row expected to remain after both upserts: the first insert with
only `amount` and `processed_timestamp` taken from the second. -/
def merged_row : DBRow :=
  { first_insert_row with amount := second_insert_row.amount, processed_timestamp := second_insert_row.processed_timestamp }

/-- Witness for C5: upserting `t1` twice into an empty table leaves
exactly one `t1` row carrying the second amount and timestamp and the
first insert's other columns. -/
theorem upsert_updates_only_amount_and_timestamp_witness :
    (upsert (upsert [] first_insert_row) second_insert_row).filter
        (fun r => decide (r.transaction_id = first_insert_row.transaction_id)) =
      [merged_row] :=
  upsert_updates_only_amount_and_timestamp.2.2 [] first_insert_row second_insert_row
    (by simp) rfl

/-- C4: for every folder, date and format in {csv, json}, the storage key
computed for an upload is exactly
`<folder>/year=<YYYY>/month=<MM>/day=<DD>/transactions-<YYYYMMDD>.<ext>`,
a pure function of (folder, date, extension); in particular folder
`raw-data`, date 2024-07-26, format csv yields
`raw-data/year=2024/month=07/day=26/transactions-20240726.csv`. -/
theorem upload_key_matches_spec_format :
    (∀ folder date, upload_csv_key folder date = spec_storage_key folder date "csv") ∧
    (∀ folder date, upload_json_key folder date = spec_storage_key folder date "json") ∧
    upload_csv_key "raw-data" ⟨2024, 7, 26⟩ =
      "raw-data/year=2024/month=07/day=26/transactions-20240726.csv" := by
  refine ⟨?_, ?_, ?_⟩
  · intro folder date
    simp only [upload_csv_key, spec_storage_key, fmt_ymd, String.append_assoc,
      slash_transactions_merge, show ("." : String) ++ "csv" = ".csv" from rfl]
  · intro folder date
    simp only [upload_json_key, spec_storage_key, fmt_ymd, String.append_assoc,
      slash_transactions_merge, show ("." : String) ++ "json" = ".json" from rfl]
  · rfl
